import Mathlib

/-!
Verification of the CPF generator/validator
(`validar_gerar_cpf/gerador_de_cpf.py`, `validar_gerar_cpf/validador_cpf.py`).

Strings are modelled as `List Char` over the full Unicode scalar range.
Python's str-pattern `\d` matches every Unicode decimal digit (category Nd),
and `int(c)` converts each of them to its value; both are modelled from the
Unicode 14.0 character database (the version shipped with CPython 3.11):
category Nd is exactly 66 runs of ten consecutive codepoints carrying the
values 0-9 in order.  Fallible Python operations (string indexing, `int`
conversion) are modelled with `Option`, so that totality ("never raises") is
a provable statement.
-/

namespace Cpf

/-- First codepoint of each run of ten consecutive Unicode decimal digits
(category Nd, Unicode 14.0): every Nd character is `start + v` for exactly one
listed `start`, where `v` in 0..9 is its decimal value. -/
def ndRangeStarts : List Nat :=
  [0x30, 0x660, 0x6F0, 0x7C0, 0x966, 0x9E6, 0xA66, 0xAE6, 0xB66, 0xBE6,
   0xC66, 0xCE6, 0xD66, 0xDE6, 0xE50, 0xED0, 0xF20, 0x1040, 0x1090, 0x17E0,
   0x1810, 0x1946, 0x19D0, 0x1A80, 0x1A90, 0x1B50, 0x1BB0, 0x1C40, 0x1C50,
   0xA620, 0xA8D0, 0xA900, 0xA9D0, 0xA9F0, 0xAA50, 0xABF0, 0xFF10, 0x104A0,
   0x10D30, 0x11066, 0x110F0, 0x11136, 0x111D0, 0x112F0, 0x11450, 0x114D0,
   0x11650, 0x116C0, 0x11730, 0x118E0, 0x11950, 0x11C50, 0x11D50, 0x11DA0,
   0x16A60, 0x16AC0, 0x16B50, 0x1D7CE, 0x1D7D8, 0x1D7E2, 0x1D7EC, 0x1D7F6,
   0x1E140, 0x1E2F0, 0x1E950, 0x1FBF0]

/-- The digit test of Python's str-pattern `\d`: any Unicode decimal digit
(category Nd). -/
def isDigitChar (c : Char) : Bool :=
  ndRangeStarts.any (fun b => b ≤ c.toNat && c.toNat ≤ b + 9)

/-- Python's `int(c)` on a one-character string: the decimal value of a
Unicode decimal digit (its offset inside its Nd run), or a raised
`ValueError` (modelled as `none`) for any other character. -/
def digitVal (c : Char) : Option Nat :=
  match ndRangeStarts.find? (fun b => b ≤ c.toNat && c.toNat ≤ b + 9) with
  | some b => some (c.toNat - b)
  | none => none

/-- Digit values of a list of characters (`digitVal` with default 0; used
only to state properties about lists already known to be all digits). -/
def digitVals (s : List Char) : List Nat :=
  s.map (fun c => (digitVal c).getD 0)

/-- Python `str.isspace` characters relevant to `str.strip()` (ASCII fragment:
space, tab, newline, vertical tab, form feed, carriage return). -/
def isPySpace (c : Char) : Bool :=
  c.toNat = 32 || c.toNat = 9 || c.toNat = 10 || c.toNat = 11 ||
    c.toNat = 12 || c.toNat = 13

/-- `cpf.replace(" ", "")` (validador_cpf.py line 41): removes every space
character, anywhere in the string. -/
def removeSpaces (s : List Char) : List Char :=
  s.filter (fun c => c != ' ')

/-- Python `str.strip()` (validador_cpf.py line 55): drops leading and
trailing whitespace. -/
def pyStrip (s : List Char) : List Char :=
  ((s.dropWhile isPySpace).reverse.dropWhile isPySpace).reverse

/-- The regex `^\d{11}$` core (validador_cpf.py line 45): exactly 11
consecutive decimal digits. -/
def shapeB (s : List Char) : Bool :=
  s.length == 11 && s.all isDigitChar

/-- The regex `^\d{3}\.\d{3}\.\d{3}-\d{2}$` core (validador_cpf.py line 44):
3 digits, '.', 3 digits, '.', 3 digits, '-', 2 digits. -/
def shapeA (s : List Char) : Bool :=
  match s with
  | [a, b, c, p1, d, e, f, p2, g, x, i, q, j, k] =>
    isDigitChar a && isDigitChar b && isDigitChar c && p1 == '.' &&
    isDigitChar d && isDigitChar e && isDigitChar f && p2 == '.' &&
    isDigitChar g && isDigitChar x && isDigitChar i && q == '-' &&
    isDigitChar j && isDigitChar k
  | _ => false

/-- Python `re.match` with a `$`-anchored pattern: `$` matches at the end of
the string, or just before a single newline at the end of the string. -/
def pyFullMatch (core : List Char → Bool) (s : List Char) : Bool :=
  core s || (s.getLast? == some '\n' && core s.dropLast)

/-- `cpf.replace(".", "").replace("-", "").strip()`
(validador_cpf.py line 55). -/
def cpfLimpo (cpf : List Char) : List Char :=
  pyStrip ((cpf.filter (fun c => c != '.')).filter (fun c => c != '-'))

/-- The weighted-sum loop shared by both files (validador_cpf.py lines 59-64
and 71-76, gerador_de_cpf.py lines 56-61 and 68-73), over characters:
`soma += int(i) * index; index -= 1`, starting at weight `w`. -/
def somaChars : List Char → Nat → Option Nat
  | [], _ => some 0
  | c :: cs, w =>
    match digitVal c, somaChars cs (w - 1) with
    | some d, some r => some (d * w + r)
    | _, _ => none

/-- The check-digit adjustment (gerador_de_cpf.py lines 80-83,
validador_cpf.py lines 83-86): a value above 9 becomes 0. -/
def ajusta (n : Nat) : Nat :=
  if n > 9 then 0 else n

/-- The check-digit computation and comparison of the validator
(validador_cpf.py lines 57-97), applied to the cleaned string `cpf_limpo`:
both sums, both adjustments, then the two nested equality tests against
`int(cpf_limpo[9])` and `int(cpf_limpo[10])`. -/
def checkDigits (limpo : List Char) : Option Bool :=
  match somaChars (limpo.take 9) 10, somaChars (limpo.take 10) 11 with
  | some s1, some s2 =>
    let digito_um := ajusta (11 - s1 % 11)
    let digito_dois := ajusta (11 - s2 % 11)
    match (limpo.get? 9).bind digitVal with
    | some r10 =>
      if r10 = digito_um then
        match (limpo.get? 10).bind digitVal with
        | some r11 => some (if r11 = digito_dois then true else false)
        | none => none
      else some false
    | none => none
  | _, _ => none

/-- `validar_cpf` (validador_cpf.py lines 40-97): strip spaces, check the two
regex shapes, clean separators, recompute and compare the check digits.
`none` would mean an uncaught exception. -/
def validar_cpf (s : List Char) : Option Bool :=
  let cpf := removeSpaces s
  if pyFullMatch shapeB cpf || pyFullMatch shapeA cpf then
    checkDigits (cpfLimpo cpf)
  else
    some false

/-- The weighted-sum loop of the generator over digit values
(gerador_de_cpf.py lines 56-61 and 68-73). -/
def somaPonderada : List Nat → Nat → Nat
  | [], _ => 0
  | d :: ds, w => d * w + somaPonderada ds (w - 1)

/-- The per-character digit values of `str(n)`: the decimal digits of `n`. -/
def decimalDigits (n : Nat) : List Nat :=
  digitVals (Nat.repr n).data

/-- `digito_um = 11 - (soma % 11)` (gerador_de_cpf.py line 64), before the
wrap adjustment. -/
def digito_um_raw (ds : List Nat) : Nat :=
  11 - somaPonderada (ds.take 9) 10 % 11

/-- The generator's first check digit after the adjustment
(gerador_de_cpf.py lines 80-81). -/
def digito_um (ds : List Nat) : Nat :=
  ajusta (digito_um_raw ds)

/-- `digito_dois = 11 - (soma % 11)` over the characters of
`cpf[:9] + str(digito_um)` (gerador_de_cpf.py lines 68-76).  Note that
`str(digito_um)` is the string of the *unadjusted* first check digit, which
has two characters when that digit is 10 or 11. -/
def digito_dois_raw (ds : List Nat) : Nat :=
  11 - somaPonderada (ds.take 9 ++ decimalDigits (digito_um_raw ds)) 11 % 11

/-- The generator's second check digit after the adjustment
(gerador_de_cpf.py lines 82-83). -/
def digito_dois (ds : List Nat) : Nat :=
  ajusta (digito_dois_raw ds)

/-- `gerar_cpf` (gerador_de_cpf.py lines 48-88) as a function of the nine
random digits drawn: `f"{cpf[:3]}.{cpf[3:6]}.{cpf[6:9]}-{digito_um}{digito_dois}"`.
The digit characters of `cpf` are recovered as `Nat.digitChar`; the check
digits are rendered with `Nat.repr`, Lean's `str`. -/
def gerar_cpf (ds : List Nat) : List Char :=
  let cpf := ds.map Nat.digitChar
  cpf.take 3 ++ '.' :: ((cpf.drop 3).take 3) ++ '.' :: ((cpf.drop 6).take 3) ++
    '-' :: ((Nat.repr (digito_um ds)).data ++ (Nat.repr (digito_dois ds)).data)

/-- Descending weight lists: `weightList w n = [w, w - 1, ..., w - n + 1]`. -/
def weightList : Nat → Nat → List Nat
  | _, 0 => []
  | w, n + 1 => w :: weightList (w - 1) n

/-- Check digit 1 as the spec words it: weights 10, 9, ..., 2 assigned to the
9 base digits in order, summed; `11 - (sum mod 11)`, replaced by 0 when that
value exceeds 9. -/
def cd1Spec (ds : List Nat) : Nat :=
  let r := (List.zipWith (fun d w => d * w) ds [10, 9, 8, 7, 6, 5, 4, 3, 2]).sum % 11
  if 11 - r > 9 then 0 else 11 - r

/-- Check digit 2 as the spec words it: the 9 base digits followed by the
final (wrap-adjusted, single-digit) check digit 1, weights 11 down to 2.
Stated for comparison with the generator's `digito_dois`. -/
def digito_dois_spec (ds : List Nat) : Nat :=
  ajusta (11 - somaPonderada (ds.take 9 ++ [digito_um ds]) 11 % 11)

/-- The validator's check-digit acceptance condition of `checkDigits`, on the
digit values of the cleaned string: both comparisons are against the digits as
supplied (check digit 2 is recomputed from the supplied first 10 digits). -/
def validCode (ds : List Nat) : Bool :=
  if ds.getD 9 0 = ajusta (11 - somaPonderada (ds.take 9) 10 % 11) then
    if ds.getD 10 0 = ajusta (11 - somaPonderada (ds.take 10) 11 % 11) then true
    else false
  else false

/-- The spec's acceptance condition (§4.3 steps 4-5): check digit 1 recomputed
from the 9 base digits, check digit 2 recomputed from the 9 base digits plus
the *computed* check digit 1. -/
def validSpec (ds : List Nat) : Bool :=
  let base := ds.take 9
  let d1 := ajusta (11 - somaPonderada base 10 % 11)
  let d2 := ajusta (11 - somaPonderada (base ++ [d1]) 11 % 11)
  if ds.getD 9 0 = d1 then
    if ds.getD 10 0 = d2 then true
    else false
  else false

/-- A decimal digit 0-9, the digit the spec's format shapes denote. -/
def asciiDigit (c : Char) : Bool :=
  48 ≤ c.toNat && c.toNat ≤ 57

/-- Shape (b) exactly as the spec states it: exactly 11 consecutive decimal
digits, no separators.  Stated for comparison with the code's format gate. -/
def shapeB_spec (s : List Char) : Bool :=
  s.length == 11 && s.all asciiDigit

/-- Shape (a) exactly as the spec states it: 3 digits, '.', 3 digits, '.',
3 digits, '-', 2 digits.  Stated for comparison with the code's format
gate. -/
def shapeA_spec (s : List Char) : Bool :=
  match s with
  | [a, b, c, p1, d, e, f, p2, g, x, i, q, j, k] =>
    asciiDigit a && asciiDigit b && asciiDigit c && p1 == '.' &&
    asciiDigit d && asciiDigit e && asciiDigit f && p2 == '.' &&
    asciiDigit g && asciiDigit x && asciiDigit i && q == '-' &&
    asciiDigit j && asciiDigit k
  | _ => false

end Cpf

namespace Cpf

theorem le_toNat_of_digit (c : Char) (h : isDigitChar c = true) :
    48 ≤ c.toNat := by
  unfold isDigitChar at h
  rw [List.any_eq_true] at h
  obtain ⟨b, hb, hc⟩ := h
  simp only [Bool.and_eq_true, decide_eq_true_eq] at hc
  have hall : ∀ y ∈ ndRangeStarts, 48 ≤ y := by decide
  have := hall b hb
  omega

theorem isPySpace_eq_false_of_digit (c : Char) (h : isDigitChar c = true) :
    isPySpace c = false := by
  have h48 := le_toNat_of_digit c h
  simp only [isPySpace, Bool.or_eq_false_iff, decide_eq_false_iff_not]
  omega

theorem digitVal_isSome_of_digit (c : Char) (h : isDigitChar c = true) :
    (digitVal c).isSome = true := by
  unfold isDigitChar at h
  rw [List.any_eq_true] at h
  have hf : (ndRangeStarts.find? (fun b => b ≤ c.toNat && c.toNat ≤ b + 9)).isSome = true := by
    rw [List.find?_isSome]
    exact h
  obtain ⟨b, hb⟩ := Option.isSome_iff_exists.1 hf
  unfold digitVal
  rw [hb]
  rfl

theorem bne_dot_of_digit (c : Char) (h : isDigitChar c = true) : (c != '.') = true := by
  rcases eq_or_ne c '.' with rfl | hne
  · exact absurd h (by decide)
  · simpa using hne

theorem bne_dash_of_digit (c : Char) (h : isDigitChar c = true) : (c != '-') = true := by
  rcases eq_or_ne c '-' with rfl | hne
  · exact absurd h (by decide)
  · simpa using hne

theorem dropWhile_space_of_digits (l : List Char) (h : l.all isDigitChar = true) :
    l.dropWhile isPySpace = l := by
  cases l with
  | nil => rfl
  | cons c t =>
    rw [List.all_cons, Bool.and_eq_true] at h
    rw [List.dropWhile_cons, isPySpace_eq_false_of_digit c h.1]
    simp

theorem pyStrip_of_digits (l : List Char) (h : l.all isDigitChar = true) :
    pyStrip l = l := by
  unfold pyStrip
  rw [dropWhile_space_of_digits l h,
    dropWhile_space_of_digits l.reverse (by rw [List.all_reverse]; exact h),
    List.reverse_reverse]

theorem pyStrip_digits_newline (l : List Char) (hne : l ≠ []) (h : l.all isDigitChar = true) :
    pyStrip (l ++ ['\n']) = l := by
  unfold pyStrip
  have h1 : (l ++ ['\n']).dropWhile isPySpace = l ++ ['\n'] := by
    cases l with
    | nil => exact absurd rfl hne
    | cons c t =>
      rw [List.cons_append, List.dropWhile_cons]
      rw [List.all_cons, Bool.and_eq_true] at h
      rw [isPySpace_eq_false_of_digit c h.1]
      simp
  rw [h1, List.reverse_append]
  have h2 : (['\n'] : List Char).reverse ++ l.reverse = '\n' :: l.reverse := by simp
  rw [h2, List.dropWhile_cons, if_pos (show isPySpace '\n' = true from by decide),
    dropWhile_space_of_digits l.reverse (by rw [List.all_reverse]; exact h),
    List.reverse_reverse]

theorem filter_seps_of_digits (l : List Char) (h : l.all isDigitChar = true) :
    (l.filter (fun c => c != '.')).filter (fun c => c != '-') = l := by
  have hall := List.all_eq_true.1 h
  have h1 : l.filter (fun c => c != '.') = l :=
    List.filter_eq_self.2 fun a ha => bne_dot_of_digit a (hall a ha)
  have h2 : l.filter (fun c => c != '-') = l :=
    List.filter_eq_self.2 fun a ha => bne_dash_of_digit a (hall a ha)
  rw [h1, h2]

theorem cpfLimpo_digits (l : List Char) (h : l.all isDigitChar = true) :
    cpfLimpo l = l := by
  unfold cpfLimpo
  rw [filter_seps_of_digits l h, pyStrip_of_digits l h]

theorem cpfLimpo_digits_newline (l : List Char) (hne : l ≠ []) (h : l.all isDigitChar = true) :
    cpfLimpo (l ++ ['\n']) = l := by
  have hall := List.all_eq_true.1 h
  have h1 : l.filter (fun c => c != '.') = l :=
    List.filter_eq_self.2 fun a ha => bne_dot_of_digit a (hall a ha)
  have h2 : l.filter (fun c => c != '-') = l :=
    List.filter_eq_self.2 fun a ha => bne_dash_of_digit a (hall a ha)
  have hd1 : List.filter (fun c => c != '.') ['\n'] = ['\n'] := by decide
  have hd2 : List.filter (fun c => c != '-') ['\n'] = ['\n'] := by decide
  unfold cpfLimpo
  rw [List.filter_append, h1, hd1, List.filter_append, h2, hd2]
  exact pyStrip_digits_newline l hne h

theorem shapeB_eq (s : List Char) (h : shapeB s = true) :
    s.length = 11 ∧ s.all isDigitChar = true := by
  unfold shapeB at h
  rw [Bool.and_eq_true, beq_iff_eq] at h
  exact h

theorem shapeA_eq (s : List Char) (hs : shapeA s = true) :
    ∃ a b c d e f g x i j k : Char,
      s = [a, b, c, '.', d, e, f, '.', g, x, i, '-', j, k] ∧
      ([a, b, c, d, e, f, g, x, i, j, k] : List Char).all isDigitChar = true := by
  unfold shapeA at hs
  split at hs
  next a b c p1 d e f p2 g x i q j k =>
    simp only [Bool.and_eq_true, beq_iff_eq] at hs
    obtain ⟨⟨⟨⟨⟨⟨⟨⟨⟨⟨⟨⟨⟨ha, hb⟩, hc⟩, hp1⟩, hd⟩, he⟩, hf⟩, hp2⟩, hg⟩, hx⟩, hi⟩, hq⟩, hj⟩, hk⟩ := hs
    subst hp1 hp2 hq
    exact ⟨a, b, c, d, e, f, g, x, i, j, k, rfl, by
      simp [List.all_cons, ha, hb, hc, hd, he, hf, hg, hx, hi, hj, hk]⟩
  next => exact absurd hs (by simp)

end Cpf

namespace Cpf

theorem filter_seps_shapeA (a b c d e f g x i j k : Char)
    (h : ([a, b, c, d, e, f, g, x, i, j, k] : List Char).all isDigitChar = true) :
    (([a, b, c, '.', d, e, f, '.', g, x, i, '-', j, k] : List Char).filter
        (fun c => c != '.')).filter (fun c => c != '-')
      = [a, b, c, d, e, f, g, x, i, j, k] := by
  simp only [List.all_cons, List.all_nil, Bool.and_eq_true, and_true] at h
  obtain ⟨ha, hb, hc, hd, he, hf, hg, hx, hi, hj, hk⟩ := h
  rw [show ([a, b, c, '.', d, e, f, '.', g, x, i, '-', j, k] : List Char).filter
      (fun c => c != '.') = [a, b, c, d, e, f, g, x, i, '-', j, k] from by
    simp [List.filter_cons,
      bne_dot_of_digit a ha, bne_dot_of_digit b hb, bne_dot_of_digit c hc,
      bne_dot_of_digit d hd, bne_dot_of_digit e he, bne_dot_of_digit f hf,
      bne_dot_of_digit g hg, bne_dot_of_digit x hx, bne_dot_of_digit i hi,
      bne_dot_of_digit j hj, bne_dot_of_digit k hk]]
  simp [List.filter_cons,
    bne_dash_of_digit a ha, bne_dash_of_digit b hb, bne_dash_of_digit c hc,
    bne_dash_of_digit d hd, bne_dash_of_digit e he, bne_dash_of_digit f hf,
    bne_dash_of_digit g hg, bne_dash_of_digit x hx, bne_dash_of_digit i hi,
    bne_dash_of_digit j hj, bne_dash_of_digit k hk]

theorem cpfLimpo_shapeA (a b c d e f g x i j k : Char)
    (h : ([a, b, c, d, e, f, g, x, i, j, k] : List Char).all isDigitChar = true) :
    cpfLimpo [a, b, c, '.', d, e, f, '.', g, x, i, '-', j, k]
      = [a, b, c, d, e, f, g, x, i, j, k] := by
  unfold cpfLimpo
  rw [filter_seps_shapeA a b c d e f g x i j k h, pyStrip_of_digits _ h]

theorem cpfLimpo_shapeA_newline (a b c d e f g x i j k : Char)
    (h : ([a, b, c, d, e, f, g, x, i, j, k] : List Char).all isDigitChar = true) :
    cpfLimpo (([a, b, c, '.', d, e, f, '.', g, x, i, '-', j, k] : List Char) ++ ['\n'])
      = [a, b, c, d, e, f, g, x, i, j, k] := by
  have hd1 : List.filter (fun c => c != '.') ['\n'] = ['\n'] := by decide
  have hd2 : List.filter (fun c => c != '-') ['\n'] = ['\n'] := by decide
  unfold cpfLimpo
  rw [List.filter_append, hd1, List.filter_append, hd2,
    filter_seps_shapeA a b c d e f g x i j k h]
  exact pyStrip_digits_newline _ (by simp) h

end Cpf

namespace Cpf

theorem cpfLimpo_of_format (cpf : List Char)
    (h : (pyFullMatch shapeB cpf || pyFullMatch shapeA cpf) = true) :
    (cpfLimpo cpf).length = 11 ∧ (cpfLimpo cpf).all isDigitChar = true := by
  have split_newline : ∀ s : List Char, (s.getLast? == some '\n') = true →
      s = s.dropLast ++ ['\n'] := by
    intro s hs
    rw [beq_iff_eq] at hs
    have hne : s ≠ [] := by
      intro h0
      rw [h0] at hs
      simp at hs
    have hlast : s.getLast hne = '\n' := by
      have he := List.getLast?_eq_getLast s hne
      rw [he] at hs
      simpa using hs
    nth_rewrite 1 [← List.dropLast_append_getLast hne]
    rw [hlast]
  rw [Bool.or_eq_true] at h
  rcases h with h | h <;> unfold pyFullMatch at h <;> rw [Bool.or_eq_true] at h
  · rcases h with h | h
    · obtain ⟨hlen, hdig⟩ := shapeB_eq cpf h
      rw [cpfLimpo_digits cpf hdig]
      exact ⟨hlen, hdig⟩
    · rw [Bool.and_eq_true] at h
      obtain ⟨hlast, hB⟩ := h
      obtain ⟨hlen, hdig⟩ := shapeB_eq _ hB
      have hne2 : cpf.dropLast ≠ [] := by
        intro h0
        rw [h0] at hlen
        simp at hlen
      rw [split_newline cpf hlast, cpfLimpo_digits_newline _ hne2 hdig]
      exact ⟨hlen, hdig⟩
  · rcases h with h | h
    · obtain ⟨a, b, c, d, e, f, g, x, i, j, k, hs, hdig⟩ := shapeA_eq cpf h
      rw [hs, cpfLimpo_shapeA a b c d e f g x i j k hdig]
      exact ⟨rfl, hdig⟩
    · rw [Bool.and_eq_true] at h
      obtain ⟨hlast, hA⟩ := h
      obtain ⟨a, b, c, d, e, f, g, x, i, j, k, hs, hdig⟩ := shapeA_eq _ hA
      rw [split_newline cpf hlast, hs, cpfLimpo_shapeA_newline a b c d e f g x i j k hdig]
      exact ⟨rfl, hdig⟩

theorem somaChars_digits (l : List Char) (h : l.all isDigitChar = true) (w : Nat) :
    somaChars l w = some (somaPonderada (digitVals l) w) := by
  induction l generalizing w with
  | nil => rfl
  | cons c t ih =>
    rw [List.all_cons, Bool.and_eq_true] at h
    obtain ⟨v, hv⟩ := Option.isSome_iff_exists.1 (digitVal_isSome_of_digit c h.1)
    simp [somaChars, hv, ih h.2, somaPonderada, digitVals]

theorem digitVals_take (l : List Char) (n : Nat) :
    digitVals (l.take n) = (digitVals l).take n := by
  unfold digitVals
  exact List.map_take _ l n

theorem get_digitVal (l : List Char) (h : l.all isDigitChar = true) (i : Nat)
    (hi : i < l.length) :
    (l.get? i).bind digitVal = some ((digitVals l).getD i 0) := by
  have hsome : l.get? i = some (l.get ⟨i, hi⟩) := List.get?_eq_get hi
  have hmem : l.get ⟨i, hi⟩ ∈ l := List.get_mem l i hi
  have hd : isDigitChar (l.get ⟨i, hi⟩) = true := List.all_eq_true.1 h _ hmem
  obtain ⟨v, hv⟩ := Option.isSome_iff_exists.1 (digitVal_isSome_of_digit _ hd)
  rw [hsome, Option.some_bind, hv, List.getD_eq_get?]
  unfold digitVals
  rw [List.get?_map, hsome]
  have hv2 : digitVal l[i] = some v := hv
  simp [hv2]

theorem all_take (l : List Char) (n : Nat) (h : l.all isDigitChar = true) :
    (l.take n).all isDigitChar = true :=
  List.all_eq_true.2 fun xc hxc => List.all_eq_true.1 h xc (List.take_subset n l hxc)

theorem checkDigits_eq_validCode (l : List Char) (hd : l.all isDigitChar = true)
    (hl : l.length = 11) :
    checkDigits l = some (validCode (digitVals l)) := by
  unfold checkDigits validCode
  rw [somaChars_digits _ (all_take l 9 hd) 10, somaChars_digits _ (all_take l 10 hd) 11,
    digitVals_take, digitVals_take]
  simp only [get_digitVal l hd 9 (by omega), get_digitVal l hd 10 (by omega)]
  split <;> rfl

end Cpf

namespace Cpf

theorem validar_cpf_eq_of_format (s : List Char)
    (h : (pyFullMatch shapeB (removeSpaces s) || pyFullMatch shapeA (removeSpaces s)) = true) :
    validar_cpf s = some (validCode (digitVals (cpfLimpo (removeSpaces s)))) := by
  obtain ⟨hlen, hdig⟩ := cpfLimpo_of_format (removeSpaces s) h
  have h1 : validar_cpf s = checkDigits (cpfLimpo (removeSpaces s)) := by
    simp only [validar_cpf, h, if_true]
  rw [h1, checkDigits_eq_validCode _ hdig hlen]

theorem validar_cpf_eq_of_no_format (s : List Char)
    (h : (pyFullMatch shapeB (removeSpaces s) || pyFullMatch shapeA (removeSpaces s)) = false) :
    validar_cpf s = some false := by
  simp only [validar_cpf, h, Bool.false_eq_true, if_false]

theorem validCode_eq_validSpec (ds : List Nat) (h : ds.length = 11) :
    validCode ds = validSpec ds := by
  unfold validCode validSpec
  by_cases h9 : ds.getD 9 0 = ajusta (11 - somaPonderada (ds.take 9) 10 % 11)
  · rw [if_pos h9, if_pos h9]
    have hv : ds.get? 9 = some (ds.getD 9 0) := by
      have h9lt : 9 < ds.length := by omega
      rw [List.get?_eq_get h9lt, List.getD_eq_get?, List.get?_eq_get h9lt]
      rfl
    have h10 : ds.take 10 = ds.take 9 ++ [ds.getD 9 0] := by
      rw [List.take_succ]
      congr 1
      rw [← List.get?_eq_getElem?, hv]
      rfl
    rw [h10, h9]
  · rw [if_neg h9, if_neg h9]

theorem removeSpaces_idem (s : List Char) :
    removeSpaces (removeSpaces s) = removeSpaces s := by
  unfold removeSpaces
  rw [List.filter_filter]
  simp only [Bool.and_self]

end Cpf

namespace Cpf

theorem somaPonderada_eq_zipWith (ds : List Nat) (w : Nat) :
    somaPonderada ds w = (List.zipWith (fun d x => d * x) ds (weightList w ds.length)).sum := by
  induction ds generalizing w with
  | nil => rfl
  | cons d t ih => simp [somaPonderada, weightList, ih, List.zipWith]

theorem weightList_ten_nine : weightList 10 9 = [10, 9, 8, 7, 6, 5, 4, 3, 2] := by decide

theorem ajusta_le (n : Nat) : ajusta n ≤ 9 := by
  unfold ajusta
  split <;> omega

theorem digitVal_digitChar (d : Nat) (h : d < 10) :
    digitVal (Nat.digitChar d) = some d := by
  interval_cases d <;> decide

theorem isDigitChar_digitChar (d : Nat) (h : d < 10) :
    isDigitChar (Nat.digitChar d) = true := by
  interval_cases d <;> decide

theorem repr_single (d : Nat) (h : d < 10) :
    (Nat.repr d).data = [Nat.digitChar d] := by
  interval_cases d <;> decide

theorem somaChars_map_digitChar (ds : List Nat) (h : ∀ d ∈ ds, d < 10) (w : Nat) :
    somaChars (ds.map Nat.digitChar) w = some (somaPonderada ds w) := by
  induction ds generalizing w with
  | nil => rfl
  | cons d t ih =>
    have hd : d < 10 := h d (by simp)
    simp [somaChars, digitVal_digitChar d hd,
      ih (fun y hy => h y (by simp [hy])), somaPonderada]

theorem exists_nine (ds : List Nat) (h : ds.length = 9) :
    ∃ a b c d e f g x i, ds = [a, b, c, d, e, f, g, x, i] := by
  rcases ds with _ | ⟨a, _ | ⟨b, _ | ⟨c, _ | ⟨d, _ | ⟨e, _ | ⟨f, _ | ⟨g, _ | ⟨x, _ | ⟨i, _ | ⟨j, t⟩⟩⟩⟩⟩⟩⟩⟩⟩⟩ <;>
    first
      | exact ⟨_, _, _, _, _, _, _, _, _, rfl⟩
      | simp at h

end Cpf

namespace Cpf

/-- C1: the generate-then-validate round trip fails on the draw of nine zero
digits: the generator emits "000.000.000-08" (the unadjusted first check digit
11 is appended as the two characters "11", so the second sum runs over eleven
digits), and the validator rejects it. -/
theorem C1_generate_validate_bug :
    gerar_cpf [0, 0, 0, 0, 0, 0, 0, 0, 0] = ("000.000.000-08").data ∧
    validar_cpf (gerar_cpf [0, 0, 0, 0, 0, 0, 0, 0, 0]) = some false := by
  decide

/-- C2: at the all-zero base the generator's second check digit is 8, not the
0 that the spec's rule (base digits followed by the wrap-adjusted check digit
1, weights 11 down to 2) yields, because `str(digito_um)` contributes the two
digits 1, 1 instead of the single adjusted digit 0. -/
theorem C2_check_digit2_bug :
    digito_dois [0, 0, 0, 0, 0, 0, 0, 0, 0] = 8 ∧
    digito_dois_spec [0, 0, 0, 0, 0, 0, 0, 0, 0] = 0 ∧
    decimalDigits (digito_um_raw [0, 0, 0, 0, 0, 0, 0, 0, 0]) = [1, 1] := by
  decide

/-- C3: for every 9-digit base, check digit 1 equals 11 minus the weighted sum
(weights 10 down to 2) modulo 11, replaced by 0 when above 9 - computed this
way both by the generator (`digito_um`) and by the validator's first
weighted-sum-and-adjust pass over the cleaned characters. -/
theorem C3_check_digit1_formula (ds : List Nat) (rest : List Char)
    (h9 : ds.length = 9) (hlt : ∀ d ∈ ds, d < 10) :
    digito_um ds = cd1Spec ds ∧
    (somaChars ((ds.map Nat.digitChar ++ rest).take 9) 10).map
        (fun s => ajusta (11 - s % 11)) = some (cd1Spec ds) := by
  have ht : ds.take 9 = ds := by
    rw [← h9]
    exact List.take_length ds
  have key : ajusta (11 - somaPonderada ds 10 % 11) = cd1Spec ds := by
    rw [somaPonderada_eq_zipWith ds 10, h9, weightList_ten_nine]
    simp only [cd1Spec, ajusta]
  constructor
  · unfold digito_um digito_um_raw
    rw [ht]
    exact key
  · have htake : (ds.map Nat.digitChar ++ rest).take 9 = ds.map Nat.digitChar := by
      have hlen : (ds.map Nat.digitChar).length = 9 := by simp [h9]
      rw [← hlen]
      exact List.take_left _ _
    rw [htake, somaChars_map_digitChar ds hlt 10]
    simp only [Option.map_some']
    rw [key]

/-- C3 witness: the base 1..9. -/
theorem C3_check_digit1_formula_witness :
    digito_um [1, 2, 3, 4, 5, 6, 7, 8, 9] = cd1Spec [1, 2, 3, 4, 5, 6, 7, 8, 9] :=
  (C3_check_digit1_formula [1, 2, 3, 4, 5, 6, 7, 8, 9] [] (by decide) (by decide)).1

/-- C4 counterexample: two inputs match neither shape as the claim states
them, yet the validator accepts both: "12345678909\n" (Python's `$` matches
just before a final newline, which the later `strip()` removes) and eleven
Arabic-Indic zero digits U+0660 (Python's `\d` matches, and `int()` converts,
every Unicode decimal digit, not only 0-9). -/
theorem C4_format_gate_counterexample :
    (validar_cpf ("12345678909\n").data = some true ∧
      shapeB_spec (removeSpaces ("12345678909\n").data) = false ∧
      shapeA_spec (removeSpaces ("12345678909\n").data) = false) ∧
    (validar_cpf (List.replicate 11 '٠') = some true ∧
      shapeB_spec (removeSpaces (List.replicate 11 '٠')) = false ∧
      shapeA_spec (removeSpaces (List.replicate 11 '٠')) = false) := by
  decide

/-- C4 (amended): after stripping spaces the validator returns false, without
raising, for every string that matches neither of the two shapes once a digit
position is allowed to hold any Unicode decimal digit (what Python's `\d`
matches) and an optional single trailing newline is allowed for. -/
theorem C4_format_gate_amended (s : List Char)
    (hB : pyFullMatch shapeB (removeSpaces s) = false)
    (hA : pyFullMatch shapeA (removeSpaces s) = false) :
    validar_cpf s = some false :=
  validar_cpf_eq_of_no_format s (by rw [hB, hA]; rfl)

/-- C4 witness: a fully non-digit input is rejected as format-invalid. -/
theorem C4_format_gate_amended_witness :
    validar_cpf ("abc.def.ghi-jk").data = some false :=
  C4_format_gate_amended ("abc.def.ghi-jk").data (by decide) (by decide)

end Cpf

namespace Cpf

/-- C5: for every input passing the format check, the validator returns true
exactly when both recomputed check digits match the supplied raw digits 10 and
11 (computed as the code does: check digit 2 from the supplied first 10
digits), and returns false (not an exception) whenever either mismatches. -/
theorem C5_check_digit_comparison (s : List Char)
    (h : (pyFullMatch shapeB (removeSpaces s) || pyFullMatch shapeA (removeSpaces s)) = true) :
    (validar_cpf s = some true ↔
      ((digitVals (cpfLimpo (removeSpaces s))).getD 9 0
          = ajusta (11 - somaPonderada ((digitVals (cpfLimpo (removeSpaces s))).take 9) 10 % 11) ∧
       (digitVals (cpfLimpo (removeSpaces s))).getD 10 0
          = ajusta (11 - somaPonderada ((digitVals (cpfLimpo (removeSpaces s))).take 10) 11 % 11))) ∧
    (validar_cpf s = some true ∨ validar_cpf s = some false) := by
  rw [validar_cpf_eq_of_format s h]
  unfold validCode
  set ds := digitVals (cpfLimpo (removeSpaces s)) with hds
  refine ⟨?_, ?_⟩
  · constructor
    · intro ht
      rw [Option.some_inj] at ht
      by_cases hA : ds.getD 9 0 = ajusta (11 - somaPonderada (ds.take 9) 10 % 11)
      · rw [if_pos hA] at ht
        by_cases hB : ds.getD 10 0 = ajusta (11 - somaPonderada (ds.take 10) 11 % 11)
        · exact ⟨hA, hB⟩
        · rw [if_neg hB] at ht
          exact absurd ht (by decide)
      · rw [if_neg hA] at ht
        exact absurd ht (by decide)
    · rintro ⟨hA, hB⟩
      rw [if_pos hA, if_pos hB]
  · by_cases hA : ds.getD 9 0 = ajusta (11 - somaPonderada (ds.take 9) 10 % 11)
    · by_cases hB : ds.getD 10 0 = ajusta (11 - somaPonderada (ds.take 10) 11 % 11)
      · left
        rw [if_pos hA, if_pos hB]
      · right
        rw [if_pos hA, if_neg hB]
    · right
      rw [if_neg hA]

/-- C5 witness: the spec's canonical valid formatted identifier. -/
theorem C5_check_digit_comparison_witness :
    validar_cpf ("123.456.789-09").data = some true := by
  have h := (C5_check_digit_comparison ("123.456.789-09").data (by decide)).1
  exact h.2 (by decide)

/-- C6: removing every space character before any other processing makes the
validator space-insensitive: validating any string gives the same result as
validating its space-free version. -/
theorem C6_space_insensitive (s : List Char) :
    validar_cpf s = validar_cpf (removeSpaces s) := by
  simp only [validar_cpf, removeSpaces_idem]

/-- C7: the validator is total: every input string produces a boolean; no
string indexing or digit conversion is reached without the format check having
guaranteed an 11-digit cleaned sequence, so no execution path raises. -/
theorem C7_total_no_raise (s : List Char) : (validar_cpf s).isSome = true := by
  by_cases h : (pyFullMatch shapeB (removeSpaces s) || pyFullMatch shapeA (removeSpaces s)) = true
  · rw [validar_cpf_eq_of_format s h]
    rfl
  · rw [validar_cpf_eq_of_no_format s (by simpa using h)]
    rfl

/-- C8: whenever the weighted sum of the nine base digits is 0 or 1 modulo 11,
the computed check digit is 0 (the "11 - remainder exceeds 9" wraparound), in
the generator (`digito_um`) and in the validator's weighted-sum-and-adjust
pass over the cleaned characters alike. -/
theorem C8_wraparound_zero (ds : List Nat) (l : List Char)
    (hvals : digitVals l = ds) (hdig : l.all isDigitChar = true)
    (h : somaPonderada (ds.take 9) 10 % 11 = 0 ∨ somaPonderada (ds.take 9) 10 % 11 = 1) :
    digito_um ds = 0 ∧
    (somaChars (l.take 9) 10).map (fun s => ajusta (11 - s % 11)) = some 0 := by
  have key : ajusta (11 - somaPonderada (ds.take 9) 10 % 11) = 0 := by
    rcases h with h | h <;> rw [h] <;> rfl
  refine ⟨key, ?_⟩
  rw [somaChars_digits _ (all_take l 9 hdig) 10, digitVals_take, hvals]
  simp only [Option.map_some']
  rw [key]

/-- C8 witness: the all-zero sequence (weighted sum 0). -/
theorem C8_wraparound_zero_witness :
    digito_um (digitVals (List.replicate 11 '0')) = 0 :=
  (C8_wraparound_zero (digitVals (List.replicate 11 '0')) (List.replicate 11 '0') rfl
    (by decide) (by decide)).1

end Cpf

namespace Cpf

/-- C9: for every draw of nine digits the generator's output is the canonical
pattern - 3 digits, '.', 3 digits, '.', 3 digits, '-', then each check digit
as exactly one decimal character - 14 characters in all. -/
theorem C9_generator_format (ds : List Nat) (h9 : ds.length = 9)
    (hlt : ∀ d ∈ ds, d < 10) :
    shapeA (gerar_cpf ds) = true ∧ (gerar_cpf ds).length = 14 := by
  obtain ⟨a, b, c, d, e, f, g, x, i, rfl⟩ := exists_nine ds h9
  have ha : a < 10 := hlt a (by simp)
  have hb : b < 10 := hlt b (by simp)
  have hc : c < 10 := hlt c (by simp)
  have hd : d < 10 := hlt d (by simp)
  have he : e < 10 := hlt e (by simp)
  have hf : f < 10 := hlt f (by simp)
  have hg : g < 10 := hlt g (by simp)
  have hx : x < 10 := hlt x (by simp)
  have hi : i < 10 := hlt i (by simp)
  have r1 : (Nat.repr (digito_um [a, b, c, d, e, f, g, x, i])).data
      = [Nat.digitChar (digito_um [a, b, c, d, e, f, g, x, i])] :=
    repr_single _ (Nat.lt_succ_of_le (ajusta_le _))
  have r2 : (Nat.repr (digito_dois [a, b, c, d, e, f, g, x, i])).data
      = [Nat.digitChar (digito_dois [a, b, c, d, e, f, g, x, i])] :=
    repr_single _ (Nat.lt_succ_of_le (ajusta_le _))
  have hform : gerar_cpf [a, b, c, d, e, f, g, x, i]
      = [Nat.digitChar a, Nat.digitChar b, Nat.digitChar c, '.',
         Nat.digitChar d, Nat.digitChar e, Nat.digitChar f, '.',
         Nat.digitChar g, Nat.digitChar x, Nat.digitChar i, '-']
        ++ ((Nat.repr (digito_um [a, b, c, d, e, f, g, x, i])).data
          ++ (Nat.repr (digito_dois [a, b, c, d, e, f, g, x, i])).data) := rfl
  have hu9 : digito_um [a, b, c, d, e, f, g, x, i] < 10 :=
    Nat.lt_succ_of_le (ajusta_le _)
  have hd9 : digito_dois [a, b, c, d, e, f, g, x, i] < 10 :=
    Nat.lt_succ_of_le (ajusta_le _)
  rw [hform, r1, r2]
  constructor
  · simp [shapeA, isDigitChar_digitChar a ha, isDigitChar_digitChar b hb,
      isDigitChar_digitChar c hc, isDigitChar_digitChar d hd,
      isDigitChar_digitChar e he, isDigitChar_digitChar f hf,
      isDigitChar_digitChar g hg, isDigitChar_digitChar x hx,
      isDigitChar_digitChar i hi,
      isDigitChar_digitChar (digito_um [a, b, c, d, e, f, g, x, i]) hu9,
      isDigitChar_digitChar (digito_dois [a, b, c, d, e, f, g, x, i]) hd9]
  · rfl

/-- C9 witness: the base 1..9. -/
theorem C9_generator_format_witness :
    shapeA (gerar_cpf [1, 2, 3, 4, 5, 6, 7, 8, 9]) = true :=
  (C9_generator_format [1, 2, 3, 4, 5, 6, 7, 8, 9] (by decide) (by decide)).1

/-- C10: on every format-valid input the validator's boolean result coincides
with the spec's definition, which recomputes check digit 2 from the 9 base
digits plus the computed check digit 1 (the code instead uses the supplied
10th digit, but that digit has already been compared with the computed check
digit 1). -/
theorem C10_validator_refines_spec (s : List Char)
    (h : (pyFullMatch shapeB (removeSpaces s) || pyFullMatch shapeA (removeSpaces s)) = true) :
    validar_cpf s = some (validSpec (digitVals (cpfLimpo (removeSpaces s)))) := by
  obtain ⟨hlen, hdig⟩ := cpfLimpo_of_format (removeSpaces s) h
  rw [validar_cpf_eq_of_format s h,
    validCode_eq_validSpec _ (by simpa [digitVals] using hlen)]

/-- C10 witness: the unformatted valid identifier from the spec's tests. -/
theorem C10_validator_refines_spec_witness :
    validar_cpf ("12345678909").data
      = some (validSpec (digitVals (cpfLimpo (removeSpaces ("12345678909").data)))) :=
  C10_validator_refines_spec ("12345678909").data (by decide)

end Cpf
